import Mathlib

/-!
Verification of `mailgunlog` (src/mailgunlog/mailgunlog.py), a CLI tool
fetching Mailgun event logs.

The development shallowly embeds the program:

* the generator `logs` becomes a recursion over the list of HTTP responses
  the server would return, producing the list of issued requests, the list
  of yielded records and the outcome (success, upstream error, or
  truncation of the supplied response list);
* the date renderer `strdate_to_rfc2822` becomes a pure function
  parameterised over the current UTC datetime (which the Python code reads
  via `datetime.utcnow()`);
* the relevant parts of `main` (credential resolution, the text/JSON output
  loop) become pure functions over the same data.
-/

namespace Mailgunlog

/-- Python truthiness of an optional string: `None` and the empty string
are falsy, every other string is truthy (the source guards `if begin:`,
`if end:`, `if severity:`, `if args.domain:` use truthiness). -/
def pyTruthy : Option String → Bool
  | none => false
  | some s => s ≠ ""

/-- One log record, restricted to the fields the program reads
(`event`, `timestamp`, `recipient`, `delivery-status.description`,
`delivery-status.message`, `message.headers.subject`); every field is
optional because the source accesses them with `dict.get` and a default. -/
structure DeliveryStatus where
  description : Option String
  message : Option String
  deriving Repr, DecidableEq

structure MessageHeaders where
  subject : Option String
  deriving Repr, DecidableEq

structure MessageField where
  headers : Option MessageHeaders
  deriving Repr, DecidableEq

structure Record where
  event : Option String
  timestamp : Option Nat
  recipient : Option String
  deliveryStatus : Option DeliveryStatus
  message : Option MessageField
  deriving Repr, DecidableEq

/-- A parsed JSON page: `data['items']` and `data['paging']['next']`.
`next` is the cursor URL the code reads (only when `items` is non-empty). -/
structure Page where
  items : List Record
  next : String
  deriving Repr, DecidableEq

/-- An HTTP response: status code plus parsed JSON body. -/
structure HttpResponse where
  status : Nat
  body : Page
  deriving Repr, DecidableEq

/-- `response.ok` of the requests library: true exactly when the status
code is below 400. -/
def statusOk (s : Nat) : Bool := s < 400

/-- A request as issued by `requests.get(url=url, auth=..., params=params)`:
`params` is `some dict` for the first request and `none` afterwards
(the source sets `params = None` once it follows a cursor). -/
structure Request where
  url : String
  params : Option (List (String × String))
  deriving Repr, DecidableEq

/-- Outcome of draining the generator: normal termination on an empty
page, a raised `ValueError` carrying the offending status code, or
truncation (the supplied response list ran out while the generator still
wanted another page; the real server is an unbounded oracle). -/
inductive Outcome where
  | success
  | upstreamError (status : Nat)
  | truncated
  deriving Repr, DecidableEq

/-- Everything observable about one full drain of the generator. -/
structure RunResult where
  requests : List Request
  records : List Record
  outcome : Outcome
  deriving Repr, DecidableEq

/-- The initial URL built by `logs`. -/
def initialUrl (domain : String) : String :=
  "https://api.eu.mailgun.net/v3/" ++ domain ++ "/events"

/-- The query dictionary built at the top of `logs`, in insertion order:
`begin` when truthy; `end` when truthy, else `ascending=no`; `severity`
when truthy; `event=failed` exactly when `type == 'failed'`. -/
def buildParams (beginDate endDate ty severity : Option String) :
    List (String × String) :=
  (if pyTruthy beginDate then [("begin", beginDate.getD "")] else []) ++
  (if pyTruthy endDate then [("end", endDate.getD "")]
   else [("ascending", "no")]) ++
  (if pyTruthy severity then [("severity", severity.getD "")] else []) ++
  (if ty = some "failed" then [("event", "failed")] else [])

/-- The `while True` loop of `logs`, driven by the list of responses the
server returns in order: issue a request at the current `url` with the
current `params`; on a non-ok status raise (upstream error); otherwise
yield every item of the page; if the page was non-empty continue at
`data['paging']['next']` with `params = None`, else return. -/
def logsRun (url : String) (params : Option (List (String × String))) :
    List HttpResponse → RunResult
  | [] => ⟨[], [], Outcome.truncated⟩
  | r :: rest =>
    if statusOk r.status then
      if r.body.items = [] then
        ⟨[⟨url, params⟩], [], Outcome.success⟩
      else
        let sub := logsRun r.body.next none rest
        ⟨⟨url, params⟩ :: sub.requests, r.body.items ++ sub.records,
          sub.outcome⟩
    else
      ⟨[⟨url, params⟩], [], Outcome.upstreamError r.status⟩

/-- The generator `logs(domain, api_key, begin, end, type, severity)`,
drained against a given list of server responses. -/
def logs (domain : String) (beginDate endDate ty severity : Option String)
    (responses : List HttpResponse) : RunResult :=
  logsRun (initialUrl domain) (some (buildParams beginDate endDate ty severity))
    responses

/-- A successful page response with HTTP status 200. -/
def okResponse (p : Page) : HttpResponse := ⟨200, p⟩

/-- A 200 response whose page has no items (the terminating page). -/
def emptyResponse (next : String) : HttpResponse := ⟨200, ⟨[], next⟩⟩

/-! ## Date handling -/

/-- A UTC datetime broken into fields, standing for a Python `datetime`
value (microseconds ignored: the program never renders them). -/
structure DateTime6 where
  year : Int
  month : Int
  day : Int
  hour : Int
  minute : Int
  second : Int
  deriving Repr, DecidableEq

/-- Errors the Python code can raise in the modelled fragment. -/
inductive PyErr where
  | valueError (msg : String)
  | typeError
  deriving Repr, DecidableEq

/-- Leap year test of the proleptic Gregorian calendar used by
Python's `datetime`. -/
def isLeap (y : Int) : Bool :=
  y % 4 = 0 && (y % 100 ≠ 0 || y % 400 = 0)

/-- Length of a month, as enforced by the `datetime` constructor. -/
def daysInMonth (y m : Int) : Int :=
  if m = 2 then (if isLeap y then 29 else 28)
  else if m = 4 ∨ m = 6 ∨ m = 9 ∨ m = 11 then 30
  else 31

/-- Zero-pad a natural number to two digits (`%02d`). -/
def pad2 (n : Nat) : String :=
  if n < 10 then "0" ++ toString n else toString n

/-- Zero-pad a natural number to four digits (`%04d`, as `%Y` renders). -/
def pad4 (n : Nat) : String :=
  if n < 10 then "000" ++ toString n
  else if n < 100 then "00" ++ toString n
  else if n < 1000 then "0" ++ toString n
  else toString n

/-- Three-letter English month abbreviation (`%b`). -/
def monthAbbrev (m : Int) : String :=
  if m = 1 then "Jan" else if m = 2 then "Feb" else if m = 3 then "Mar"
  else if m = 4 then "Apr" else if m = 5 then "May" else if m = 6 then "Jun"
  else if m = 7 then "Jul" else if m = 8 then "Aug" else if m = 9 then "Sep"
  else if m = 10 then "Oct" else if m = 11 then "Nov" else "Dec"

/-- Day of week of a Gregorian date by Zeller's congruence, with
0 = Saturday, 1 = Sunday, ..., 6 = Friday.  Valid datetimes have
`year ≥ 1`, so the `Nat` arithmetic below is exact there. -/
def zeller (y m d : Nat) : Nat :=
  let m2 := if m < 3 then m + 12 else m
  let y2 := if m < 3 then y - 1 else y
  let k := y2 % 100
  let j := y2 / 100
  (d + (13 * (m2 + 1)) / 5 + k + k / 4 + j / 4 + 5 * j) % 7

/-- Three-letter English weekday abbreviation (`%a`) of a date. -/
def weekdayAbbrev (y m d : Int) : String :=
  let h := zeller y.toNat m.toNat d.toNat
  if h = 0 then "Sat" else if h = 1 then "Sun" else if h = 2 then "Mon"
  else if h = 3 then "Tue" else if h = 4 then "Wed" else if h = 5 then "Thu"
  else "Fri"

/-- The wire format produced by
`date.strftime('%a, %d %b %Y %H:%M:%S -0000')`. -/
def formatRfc2822 (dt : DateTime6) : String :=
  weekdayAbbrev dt.year dt.month dt.day ++ ", " ++ pad2 dt.day.toNat ++ " " ++
  monthAbbrev dt.month ++ " " ++ pad4 dt.year.toNat ++ " " ++
  pad2 dt.hour.toNat ++ ":" ++ pad2 dt.minute.toNat ++ ":" ++
  pad2 dt.second.toNat ++ " -0000"

/-- The `datetime.utcnow().strftime('%Y/%m/%d')` rendering of the
current date. -/
def fmtYMD (dt : DateTime6) : String :=
  pad4 dt.year.toNat ++ "/" ++ pad2 dt.month.toNat ++ "/" ++ pad2 dt.day.toNat

/-- Split a character list on `/`, accumulating the current component in
reverse (the helper realising Python's `str.split('/')`). -/
def splitSlashAux : List Char → List Char → List String
  | [], acc => [⟨acc.reverse⟩]
  | c :: cs, acc =>
    if c = '/' then (⟨acc.reverse⟩ : String) :: splitSlashAux cs []
    else splitSlashAux cs (c :: acc)

/-- Python's `strdate.split('/')`. -/
def splitSlash (s : String) : List String :=
  splitSlashAux s.data []

/-- Decimal value of a digit character, `none` otherwise. -/
def digitVal (c : Char) : Option Nat :=
  if '0' ≤ c ∧ c ≤ '9' then some (c.toNat - 48) else none

/-- Parse a non-empty string of decimal digits. -/
def parseDigits : List Char → Option Nat
  | [] => none
  | cs => cs.foldlM (fun acc c => (digitVal c).map (fun d => acc * 10 + d)) 0

/-- Python's `int(s)` on the strings this program feeds it: an optional
sign followed by decimal digits; everything else raises `ValueError`,
modelled as `none`. -/
def pyInt (s : String) : Option Int :=
  match s.data with
  | '-' :: rest => (parseDigits rest).map (fun n => -(n : Int))
  | '+' :: rest => (parseDigits rest).map (fun n => (n : Int))
  | ds => (parseDigits ds).map (fun n => (n : Int))

/-- `list(map(int, strdate.split('/')))`: split on `/` and parse every
component as an integer; `none` models the `ValueError` `int` raises on a
non-numeric component. -/
def parseSlashInts (s : String) : Option (List Int) :=
  (splitSlash s).mapM pyInt

/-- Range-checked `datetime` construction: month, day, hour, minute and
second must be in range and the year in `[1, 9999]`, else `ValueError`. -/
def mkDatetime (y m d h mi s : Int) : Except PyErr DateTime6 :=
  if 1 ≤ y ∧ y ≤ 9999 ∧ 1 ≤ m ∧ m ≤ 12 ∧ 1 ≤ d ∧ d ≤ daysInMonth y m ∧
      0 ≤ h ∧ h ≤ 23 ∧ 0 ≤ mi ∧ mi ≤ 59 ∧ 0 ≤ s ∧ s ≤ 59 then
    Except.ok ⟨y, m, d, h, mi, s⟩
  else
    Except.error (PyErr.valueError "invalid datetime components")

/-- `datetime(*datetimetuple)`: the unpacked call accepts 3 to 7 integer
positional arguments (year, month, day, hour, minute, second,
microsecond); any other arity is a `TypeError`.  The code always appends
exactly three clock components, so the list has at least 4 entries. -/
def datetimeOfList : List Int → Except PyErr DateTime6
  | [y, m, d] => mkDatetime y m d 0 0 0
  | [y, m, d, h] => mkDatetime y m d h 0 0
  | [y, m, d, h, mi] => mkDatetime y m d h mi 0
  | [y, m, d, h, mi, s] => mkDatetime y m d h mi s
  | [y, m, d, h, mi, s, us] =>
    if 0 ≤ us ∧ us ≤ 999999 then mkDatetime y m d h mi s
    else Except.error (PyErr.valueError "microsecond out of range")
  | _ => Except.error PyErr.typeError

/-- The source's `strdate_to_rfc2822(value=None, midnight=False, now=False)`,
parameterised over the current UTC datetime `utcnow` (read twice by the
source via `datetime.utcnow()`: for the default date and for the `now`
clock).  Mirrors the source line by line: the midnight/now conflict check
first, then the truthiness default for `value`, integer parsing, the
appended clock tuple `(0,0,0)` / current clock / `(23,59,59)`, `datetime`
construction and `strftime` rendering.  (The source also computes
`time.mktime(date.utctimetuple())` into an unused variable; it is dead
code and not modelled.) -/
def strdate_to_rfc2822 (utcnow : DateTime6) (value : Option String := none)
    (midnight : Bool := false) (now : Bool := false) :
    Except PyErr String := do
  if midnight && now then
    throw (PyErr.valueError "Choose one of \"midnight\" or \"now\"")
  let strdate := if pyTruthy value then value.getD "" else fmtYMD utcnow
  match parseSlashInts strdate with
  | none => throw (PyErr.valueError "invalid literal for int")
  | some comps =>
    let tup := comps ++
      (if midnight then [0, 0, 0]
       else if now then [utcnow.hour, utcnow.minute, utcnow.second]
       else [23, 59, 59])
    let dt ← datetimeOfList tup
    return formatRfc2822 dt

/-! ## The main program -/

/-- Convert a count of days since 1970-01-01 into a Gregorian
(year, month, day) triple (the civil-from-days algorithm, specialised to
non-negative epochs so all arithmetic is on `Nat`). -/
def civilFromDays (days : Nat) : Nat × Nat × Nat :=
  let z := days + 719468
  let era := z / 146097
  let doe := z % 146097
  let yoe := (doe - doe / 1460 + doe / 36524 - doe / 146096) / 365
  let y := yoe + era * 400
  let doy := doe - (365 * yoe + yoe / 4 - yoe / 100)
  let mp := (5 * doy + 2) / 153
  let d := doy - (153 * mp + 2) / 5 + 1
  let m := if mp < 10 then mp + 3 else mp - 9
  (if m ≤ 2 then y + 1 else y, m, d)

/-- `datetime.utcfromtimestamp(ts)` for a non-negative integer epoch. -/
def utcfromtimestamp (ts : Nat) : DateTime6 :=
  let (y, m, d) := civilFromDays (ts / 86400)
  let rem := ts % 86400
  ⟨y, m, d, rem / 3600, rem % 3600 / 60, rem % 60⟩

/-- `str(datetime)` for a whole-second datetime:
`YYYY-MM-DD HH:MM:SS`. -/
def strDatetime (dt : DateTime6) : String :=
  pad4 dt.year.toNat ++ "-" ++ pad2 dt.month.toNat ++ "-" ++
  pad2 dt.day.toNat ++ " " ++ pad2 dt.hour.toNat ++ ":" ++
  pad2 dt.minute.toNat ++ ":" ++ pad2 dt.second.toNat

/-- Python's `a or b` on strings: `a` when non-empty, else `b`. -/
def pyOrStr (a b : String) : String := if a ≠ "" then a else b

/-- Python's `str.upper()` (ASCII suffices for the event names used). -/
def strUpper (s : String) : String := ⟨s.data.map Char.toUpper⟩

/-- One iteration of `main`'s text-mode loop body: the event uppercased,
the `[utc timestamp] EVENT <recipient>` prefix, the failure-description
suffix for events that are neither ACCEPTED nor DELIVERED, and the
`: subject` tail.  A record without a `timestamp` makes
`datetime.utcfromtimestamp('')` raise a `TypeError`. -/
def formatLine (log : Record) : Except PyErr String := do
  let status := strUpper (log.event.getD "")
  let ok := status = "ACCEPTED" || status = "DELIVERED"
  match log.timestamp with
  | none => throw PyErr.typeError
  | some ts =>
    let line := "[" ++ strDatetime (utcfromtimestamp ts) ++ "] " ++ status ++
      " <" ++ (log.recipient.getD "") ++ ">"
    let line := if ok then line
      else line ++ " (" ++
        pyOrStr ((log.deliveryStatus.getD ⟨none, none⟩).description.getD "")
          ((log.deliveryStatus.getD ⟨none, none⟩).message.getD "") ++ ")"
    return line ++ ": " ++
      ((log.message.getD ⟨none⟩).headers.getD ⟨none⟩).subject.getD ""

/-- Render records one by one, stopping at the first formatting error
(the exception would abort `main`'s loop). -/
def textLines : List Record → List String
  | [] => []
  | r :: rs =>
    match formatLine r with
    | Except.ok l => l :: textLines rs
    | Except.error _ => []

/-- The JSON document `main` accumulates in JSON mode. -/
structure JsonDoc where
  domain : String
  beginDate : Option String
  endDate : Option String
  logs : List Record
  deriving Repr, DecidableEq

/-- What `main`'s output loop writes to stdout. -/
inductive OutputItem where
  | textLine (line : String)
  | jsonDoc (doc : JsonDoc)
  deriving Repr, DecidableEq

/-- The stdout produced by `main`'s fetch loop and final dump, given the
server's responses.  In text mode each record is printed as it is yielded,
so the lines for records yielded before an upstream error do appear.  In
JSON mode records are only accumulated and `json.dumps` runs after the
loop, so an exception anywhere in the fetch leaves stdout empty. -/
def mainOutput (jsonMode : Bool) (domain : String)
    (beginDate endDate : Option String) (responses : List HttpResponse) :
    List OutputItem :=
  let rr := logs domain beginDate endDate none none responses
  if jsonMode then
    match rr.outcome with
    | Outcome.success => [OutputItem.jsonDoc ⟨domain, beginDate, endDate, rr.records⟩]
    | _ => []
  else
    (textLines rr.records).map OutputItem.textLine

/-- Credential-resolution failure: the printed message and the exit code. -/
structure CredFailure where
  printed : String
  exitCode : Nat
  deriving Repr, DecidableEq

/-- The `try/except` resolving the domain in `main`: use the positional
argument when truthy, else `os.environ['MAILGUN_DOMAIN']`; a `KeyError`
prints `Missing mailgun API key` and exits with code 1. -/
def resolveDomain (argDomain : Option String) (envDomain : Option String) :
    Except CredFailure String :=
  if pyTruthy argDomain then Except.ok (argDomain.getD "")
  else
    match envDomain with
    | some v => Except.ok v
    | none => Except.error ⟨"Missing mailgun API key", 1⟩

/-- The `try/except` resolving the API key in `main`: use the positional
argument when truthy, else `os.environ['MAILGUN_API_KEY']`; a `KeyError`
prints `Missing mailgun API key` and exits with code 1. -/
def resolveApiKey (argApiKey : Option String) (envApiKey : Option String) :
    Except CredFailure String :=
  if pyTruthy argApiKey then Except.ok (argApiKey.getD "")
  else
    match envApiKey with
    | some v => Except.ok v
    | none => Except.error ⟨"Missing mailgun API key", 1⟩

/-- The `end` bound computed by `main` when `args.days` is truthy
(the relative day-count path): the literal call `strdate_to_rfc2822()`
with no arguments. -/
def resolveEndRelativeDays (utcnow : DateTime6) : Except PyErr String :=
  strdate_to_rfc2822 utcnow

/-- Modelled from the spec (section 4.1 `resolveEnd`): with
`relativeDaysUsed`, the end of the window is the current UTC instant
rendered in the wire format.  This is also what the source's own
docstring promises (`If value is None, return current utc time.`); it is
stated separately so the code's actual behaviour can be compared with it. -/
def specResolveEndRelativeDays (utcnow : DateTime6) : String :=
  formatRfc2822 utcnow

/-! ## Helper lemmas about the fetch loop -/

/-- The first request of a run against a non-empty response list is issued
at the starting URL with the starting parameters. -/
lemma logsRun_head (url : String) (params : Option (List (String × String)))
    (r : HttpResponse) (rest : List HttpResponse) :
    (logsRun url params (r :: rest)).requests[0]? = some ⟨url, params⟩ := by
  by_cases h1 : statusOk r.status <;> by_cases h2 : r.body.items = [] <;>
    simp [logsRun, h1, h2]

/-- Every request of a run that starts with `params = None` carries no
parameters. -/
lemma logsRun_none_params (responses : List HttpResponse) :
    ∀ url req, req ∈ (logsRun url none responses).requests →
      req.params = none := by
  induction responses with
  | nil => intro url req h; simp [logsRun] at h
  | cons r rest ih =>
    intro url req h
    by_cases h1 : statusOk r.status
    · by_cases h2 : r.body.items = []
      · simp [logsRun, h1, h2] at h
        simp [h]
      · simp [logsRun, h1, h2] at h
        rcases h with h | h
        · simp [h]
        · exact ih r.body.next req h
    · simp [logsRun, h1] at h
      simp [h]

/-- Every request after the first one carries no parameters. -/
lemma logsRun_tail_params (url : String)
    (params : Option (List (String × String)))
    (responses : List HttpResponse) :
    ∀ req ∈ (logsRun url params responses).requests.tail,
      req.params = none := by
  cases responses with
  | nil => intro req h; simp [logsRun] at h
  | cons r rest =>
    intro req h
    by_cases h1 : statusOk r.status
    · by_cases h2 : r.body.items = []
      · simp [logsRun, h1, h2] at h
      · simp [logsRun, h1, h2] at h
        exact logsRun_none_params rest r.body.next req h
    · simp [logsRun, h1] at h

/-- The URL of request `i+1` is the `paging.next` of response `i`. -/
lemma logsRun_next_url (responses : List HttpResponse) :
    ∀ url params i req resp,
      (logsRun url params responses).requests[i + 1]? = some req →
      responses[i]? = some resp →
      req.url = resp.body.next := by
  induction responses with
  | nil => intro url params i req resp hreq _; simp [logsRun] at hreq
  | cons r rest ih =>
    intro url params i req resp hreq hresp
    by_cases h1 : statusOk r.status
    · by_cases h2 : r.body.items = []
      · simp [logsRun, h1, h2] at hreq
      · simp [logsRun, h1, h2] at hreq
        cases i with
        | zero =>
          cases rest with
          | nil => simp [logsRun] at hreq
          | cons r2 rest2 =>
            rw [logsRun_head] at hreq
            injection hreq with hreq
            simp at hresp
            rw [← hreq, ← hresp]
        | succ j =>
          simp only [List.getElem?_cons_succ] at hresp
          exact ih r.body.next none j req resp hreq hresp
    · simp [logsRun, h1] at hreq

/-- Draining a run of successful non-empty pages followed by an empty page
yields the concatenation of the pages' items and terminates normally. -/
lemma logsRun_ok_pages (pages : List Page) :
    ∀ url params next0, (∀ p ∈ pages, p.items ≠ []) →
      (logsRun url params (pages.map okResponse ++ [emptyResponse next0])).records
          = (pages.map Page.items).flatten ∧
      (logsRun url params (pages.map okResponse ++ [emptyResponse next0])).outcome
          = Outcome.success := by
  induction pages with
  | nil =>
    intro url params next0 _
    simp [logsRun, emptyResponse, statusOk]
  | cons p ps ih =>
    intro url params next0 h
    have hp : p.items ≠ [] := h p (by simp)
    have hps : ∀ q ∈ ps, q.items ≠ [] := fun q hq => h q (by simp [hq])
    obtain ⟨ihrec, ihout⟩ := ih p.next none next0 hps
    simp [logsRun, okResponse, statusOk, hp, ihrec, ihout]

/-- Draining a run of successful non-empty pages followed by a non-ok
response raises with that status: the records are exactly the good pages'
items and exactly one request follows the good pages, whatever comes
after the failing response. -/
lemma logsRun_err_pages (pages : List Page) :
    ∀ url params (bad : HttpResponse) (rest : List HttpResponse),
      (∀ p ∈ pages, p.items ≠ []) → ¬ statusOk bad.status →
      (logsRun url params (pages.map okResponse ++ bad :: rest)).outcome
          = Outcome.upstreamError bad.status ∧
      (logsRun url params (pages.map okResponse ++ bad :: rest)).records
          = (pages.map Page.items).flatten ∧
      (logsRun url params (pages.map okResponse ++ bad :: rest)).requests.length
          = pages.length + 1 := by
  induction pages with
  | nil =>
    intro url params bad rest _ hbad
    simp [logsRun, hbad]
  | cons p ps ih =>
    intro url params bad rest h hbad
    have hp : p.items ≠ [] := h p (by simp)
    have hps : ∀ q ∈ ps, q.items ≠ [] := fun q hq => h q (by simp [hq])
    obtain ⟨ihout, ihrec, ihlen⟩ := ih p.next none bad rest hps hbad
    simp [logsRun, okResponse, statusOk, hp, ihout, ihrec, ihlen]

/-- The pair `ascending=no` is in the built query exactly when the `end`
argument is falsy. -/
lemma ascending_mem (b e t s : Option String) :
    (("ascending", "no") ∈ buildParams b e t s) ↔ pyTruthy e = false := by
  unfold buildParams
  by_cases hb : pyTruthy b <;> by_cases he : pyTruthy e <;>
    by_cases hs : pyTruthy s <;> by_cases ht : t = some "failed" <;>
      simp [hb, he, hs, ht]

/-! ## Claim theorems -/

/-- C1: for every page sequence in which pages 1..N each have non-empty
items and page N+1 has empty items, the fetcher `logs` yields exactly the
concatenation of the items of pages 1..N, in the order returned within
each page, and then terminates the sequence normally (no error). -/
theorem logs_yields_pages_concat (domain : String)
    (beginDate endDate ty severity : Option String)
    (pages : List Page) (next0 : String)
    (h : ∀ p ∈ pages, p.items ≠ []) :
    (logs domain beginDate endDate ty severity
        (pages.map okResponse ++ [emptyResponse next0])).records
      = (pages.map Page.items).flatten ∧
    (logs domain beginDate endDate ty severity
        (pages.map okResponse ++ [emptyResponse next0])).outcome
      = Outcome.success :=
  logsRun_ok_pages pages (initialUrl domain)
    (some (buildParams beginDate endDate ty severity)) next0 h

/-- Witness for C1: two non-empty pages followed by an empty page yield
the three records in order and succeed. -/
theorem logs_yields_pages_concat_witness :
    (∀ p ∈ ([⟨[⟨some "a", some 1, none, none, none⟩], "u2"⟩,
             ⟨[⟨some "b", some 2, none, none, none⟩,
               ⟨some "c", some 3, none, none, none⟩], "u3"⟩] : List Page),
        p.items ≠ []) ∧
    ((logs "d" none none none none
        (([⟨[⟨some "a", some 1, none, none, none⟩], "u2"⟩,
           ⟨[⟨some "b", some 2, none, none, none⟩,
             ⟨some "c", some 3, none, none, none⟩], "u3"⟩] : List Page).map
            okResponse ++ [emptyResponse "u4"])).records
      = (([⟨[⟨some "a", some 1, none, none, none⟩], "u2"⟩,
           ⟨[⟨some "b", some 2, none, none, none⟩,
             ⟨some "c", some 3, none, none, none⟩], "u3"⟩] : List Page).map
            Page.items).flatten ∧
    (logs "d" none none none none
        (([⟨[⟨some "a", some 1, none, none, none⟩], "u2"⟩,
           ⟨[⟨some "b", some 2, none, none, none⟩,
             ⟨some "c", some 3, none, none, none⟩], "u3"⟩] : List Page).map
            okResponse ++ [emptyResponse "u4"])).outcome
      = Outcome.success) :=
  ⟨by decide,
   logs_yields_pages_concat "d" none none none none
     [⟨[⟨some "a", some 1, none, none, none⟩], "u2"⟩,
      ⟨[⟨some "b", some 2, none, none, none⟩,
        ⟨some "c", some 3, none, none, none⟩], "u3"⟩] "u4" (by decide)⟩

/-- C2: in every run of the fetcher `logs`, only the very first HTTP
request carries query parameters (the first request is issued at the
initial URL with exactly the built query dictionary); every subsequent
request is issued with no query parameters and its URL is taken solely
from the previous page's `paging.next` field. -/
theorem logs_params_only_first_request (domain : String)
    (beginDate endDate ty severity : Option String)
    (responses : List HttpResponse) :
    (∀ req ∈ (logs domain beginDate endDate ty severity responses).requests.tail,
        req.params = none) ∧
    (∀ r rest, responses = r :: rest →
        (logs domain beginDate endDate ty severity responses).requests[0]?
          = some ⟨initialUrl domain,
              some (buildParams beginDate endDate ty severity)⟩) ∧
    (∀ i req resp,
        (logs domain beginDate endDate ty severity responses).requests[i + 1]?
            = some req →
        responses[i]? = some resp → req.url = resp.body.next) := by
  refine ⟨logsRun_tail_params _ _ _, ?_, ?_⟩
  · intro r rest hr
    subst hr
    exact logsRun_head _ _ _ _
  · intro i req resp hreq hresp
    exact logsRun_next_url responses _ _ i req resp hreq hresp

/-- Witness for C2: in a two-page run, the second request carries no
parameters, the first carries the built query, and the second request's
URL is the first page's `paging.next`. -/
theorem logs_params_only_first_request_witness :
    (Request.mk "u2" none).params = none ∧
    (logs "d" none none none none
        [okResponse ⟨[⟨none, none, none, none, none⟩], "u2"⟩,
         emptyResponse "u3"]).requests[0]?
      = some ⟨initialUrl "d", some (buildParams none none none none)⟩ ∧
    (Request.mk "u2" none).url
      = (okResponse ⟨[⟨none, none, none, none, none⟩], "u2"⟩).body.next :=
  ⟨(logs_params_only_first_request "d" none none none none
      [okResponse ⟨[⟨none, none, none, none, none⟩], "u2"⟩,
       emptyResponse "u3"]).1 ⟨"u2", none⟩ (by decide),
   (logs_params_only_first_request "d" none none none none
      [okResponse ⟨[⟨none, none, none, none, none⟩], "u2"⟩,
       emptyResponse "u3"]).2.1 _ _ rfl,
   (logs_params_only_first_request "d" none none none none
      [okResponse ⟨[⟨none, none, none, none, none⟩], "u2"⟩,
       emptyResponse "u3"]).2.2 0 ⟨"u2", none⟩
     (okResponse ⟨[⟨none, none, none, none, none⟩], "u2"⟩)
     (by decide) (by decide)⟩

/-- C3: after any run of successful non-empty pages, a response with a
non-success HTTP status makes `logs` fail immediately with an error
carrying that status code; the records are exactly those of the pages
before the failure and exactly one request follows the good pages (zero
further requests, whatever the server would have answered next). -/
theorem logs_error_aborts (domain : String)
    (beginDate endDate ty severity : Option String)
    (pages : List Page) (bad : HttpResponse) (rest : List HttpResponse)
    (hpages : ∀ p ∈ pages, p.items ≠ []) (hbad : ¬ statusOk bad.status) :
    (logs domain beginDate endDate ty severity
        (pages.map okResponse ++ bad :: rest)).outcome
      = Outcome.upstreamError bad.status ∧
    (logs domain beginDate endDate ty severity
        (pages.map okResponse ++ bad :: rest)).records
      = (pages.map Page.items).flatten ∧
    (logs domain beginDate endDate ty severity
        (pages.map okResponse ++ bad :: rest)).requests.length
      = pages.length + 1 :=
  logsRun_err_pages pages (initialUrl domain)
    (some (buildParams beginDate endDate ty severity)) bad rest hpages hbad

/-- Witness for C3: one good page followed by a 500 aborts with status
500, yields only the first page's record, and issues two requests even
though the server had another page ready. -/
theorem logs_error_aborts_witness :
    (∀ p ∈ ([⟨[⟨some "a", some 1, none, none, none⟩], "u2"⟩] : List Page),
        p.items ≠ []) ∧
    (¬ statusOk (500 : Nat)) ∧
    ((logs "d" none none none none
        (([⟨[⟨some "a", some 1, none, none, none⟩], "u2"⟩] : List Page).map
            okResponse ++
          (⟨500, ⟨[], "ignored"⟩⟩ : HttpResponse) ::
            [okResponse ⟨[⟨some "z", some 9, none, none, none⟩], "u9"⟩])).outcome
      = Outcome.upstreamError 500 ∧
    (logs "d" none none none none
        (([⟨[⟨some "a", some 1, none, none, none⟩], "u2"⟩] : List Page).map
            okResponse ++
          (⟨500, ⟨[], "ignored"⟩⟩ : HttpResponse) ::
            [okResponse ⟨[⟨some "z", some 9, none, none, none⟩], "u9"⟩])).records
      = (([⟨[⟨some "a", some 1, none, none, none⟩], "u2"⟩] : List Page).map
            Page.items).flatten ∧
    (logs "d" none none none none
        (([⟨[⟨some "a", some 1, none, none, none⟩], "u2"⟩] : List Page).map
            okResponse ++
          (⟨500, ⟨[], "ignored"⟩⟩ : HttpResponse) ::
            [okResponse ⟨[⟨some "z", some 9, none, none, none⟩], "u9"⟩])).requests.length
      = 1 + 1) :=
  ⟨by decide, by decide,
   logs_error_aborts "d" none none none none
     [⟨[⟨some "a", some 1, none, none, none⟩], "u2"⟩] ⟨500, ⟨[], "ignored"⟩⟩
     [okResponse ⟨[⟨some "z", some 9, none, none, none⟩], "u9"⟩]
     (by decide) (by decide)⟩

/-- C4: the claim says the end bound resolved under the relative
day-count option is the current UTC instant; the code instead hard-codes
the clock 23:59:59.  At the UTC instant 2024-01-01 12:34:56 the code's
`strdate_to_rfc2822()` call renders 23:59:59 while the behaviour promised
by the spec (and by the function's own docstring) renders 12:34:56. -/
theorem resolveEnd_relative_days_divergence :
    resolveEndRelativeDays ⟨2024, 1, 1, 12, 34, 56⟩
      = Except.ok "Mon, 01 Jan 2024 23:59:59 -0000" ∧
    specResolveEndRelativeDays ⟨2024, 1, 1, 12, 34, 56⟩
      = "Mon, 01 Jan 2024 12:34:56 -0000" ∧
    resolveEndRelativeDays ⟨2024, 1, 1, 12, 34, 56⟩
      ≠ Except.ok (specResolveEndRelativeDays ⟨2024, 1, 1, 12, 34, 56⟩) :=
  ⟨rfl, rfl, by
    intro h
    injection h with h
    exact absurd h (by decide)⟩

/-- C5: for every call to the fetcher `logs`, the first request carries
exactly the built query dictionary, and that dictionary contains the
parameter `ascending=no` if and only if the end bound of the window is
absent (wire-date strings are never empty). -/
theorem logs_ascending_iff_end_absent (domain : String)
    (beginDate endDate ty severity : Option String)
    (r : HttpResponse) (rest : List HttpResponse)
    (hend : ∀ x, endDate = some x → x ≠ "") :
    (logs domain beginDate endDate ty severity (r :: rest)).requests[0]?
        = some ⟨initialUrl domain,
            some (buildParams beginDate endDate ty severity)⟩ ∧
    ((("ascending", "no") ∈ buildParams beginDate endDate ty severity)
        ↔ endDate = none) := by
  constructor
  · exact logsRun_head _ _ _ _
  · rw [ascending_mem]
    cases endDate with
    | none => simp [pyTruthy]
    | some x =>
      have hx : x ≠ "" := hend x rfl
      simp [pyTruthy, hx]

/-- Witness for C5: with no `end` bound, the first request's query is the
built dictionary and `ascending=no` is in it. -/
theorem logs_ascending_iff_end_absent_witness :
    ((logs "d" none none none none [emptyResponse "u1"]).requests[0]?
        = some ⟨initialUrl "d", some (buildParams none none none none)⟩) ∧
    (("ascending", "no") ∈ buildParams none none none none) :=
  ⟨(logs_ascending_iff_end_absent "d" none none none none
      (emptyResponse "u1") [] (fun x hx => nomatch hx)).1,
   (logs_ascending_iff_end_absent "d" none none none none
      (emptyResponse "u1") [] (fun x hx => nomatch hx)).2.mpr rfl⟩

/-- C6: for every date string that parses as three in-range integer
components `YYYY/MM/DD`, `strdate_to_rfc2822` in midnight mode renders
that date with hour, minute and second all zero. -/
theorem strdate_midnight_renders_midnight (utcnow : DateTime6) (s : String)
    (y m d : Int) (hparse : parseSlashInts s = some [y, m, d])
    (hy1 : 1 ≤ y) (hy2 : y ≤ 9999) (hm1 : 1 ≤ m) (hm2 : m ≤ 12)
    (hd1 : 1 ≤ d) (hd2 : d ≤ daysInMonth y m) :
    strdate_to_rfc2822 utcnow (some s) true false
      = Except.ok (formatRfc2822 ⟨y, m, d, 0, 0, 0⟩) := by
  have hs : s ≠ "" := by
    intro h
    subst h
    rw [(by decide : parseSlashInts "" = none)] at hparse
    cases hparse
  simp [strdate_to_rfc2822, pyTruthy, hs, hparse, datetimeOfList, mkDatetime,
    hy1, hy2, hm1, hm2, hd1, hd2]

/-- Witness for C6: the string 2024/01/15 in midnight mode renders as
Mon, 15 Jan 2024 00:00:00 -0000. -/
theorem strdate_midnight_renders_midnight_witness :
    parseSlashInts "2024/01/15" = some [2024, 1, 15] ∧
    strdate_to_rfc2822 ⟨2024, 6, 1, 12, 0, 0⟩ (some "2024/01/15") true false
      = Except.ok (formatRfc2822 ⟨2024, 1, 15, 0, 0, 0⟩) :=
  ⟨by decide,
   strdate_midnight_renders_midnight ⟨2024, 6, 1, 12, 0, 0⟩ "2024/01/15"
     2024 1 15 (by decide) (by decide) (by decide) (by decide) (by decide)
     (by decide) (by decide)⟩

/-- C7: for every current time and every input value, calling
`strdate_to_rfc2822` with both the midnight mode and the now mode set
fails with the mode-conflict `ValueError`, before any date is parsed or
rendered (the result does not depend on `value` at all). -/
theorem strdate_midnight_and_now_conflict (utcnow : DateTime6)
    (value : Option String) :
    strdate_to_rfc2822 utcnow value true true
      = Except.error (PyErr.valueError "Choose one of \"midnight\" or \"now\"") :=
  rfl

/-- C8: in JSON mode, an upstream error after any number of successful
pages leaves stdout empty: no JSON document is emitted at all. -/
theorem mainOutput_json_error_no_output (domain : String)
    (beginDate endDate : Option String)
    (pages : List Page) (bad : HttpResponse) (rest : List HttpResponse)
    (hpages : ∀ p ∈ pages, p.items ≠ []) (hbad : ¬ statusOk bad.status) :
    mainOutput true domain beginDate endDate
      (pages.map okResponse ++ bad :: rest) = [] := by
  have h := (logsRun_err_pages pages (initialUrl domain)
    (some (buildParams beginDate endDate none none)) bad rest hpages hbad).1
  simp [mainOutput, logs, h]

/-- Witness for C8: one successful page followed by a 500 produces no
JSON output. -/
theorem mainOutput_json_error_no_output_witness :
    (∀ p ∈ ([⟨[⟨some "a", some 1, none, none, none⟩], "u2"⟩] : List Page),
        p.items ≠ []) ∧
    (¬ statusOk (500 : Nat)) ∧
    mainOutput true "d" none none
      (([⟨[⟨some "a", some 1, none, none, none⟩], "u2"⟩] : List Page).map
          okResponse ++ (⟨500, ⟨[], "x"⟩⟩ : HttpResponse) :: []) = [] :=
  ⟨by decide, by decide,
   mainOutput_json_error_no_output "d" none none
     [⟨[⟨some "a", some 1, none, none, none⟩], "u2"⟩] ⟨500, ⟨[], "x"⟩⟩ []
     (by decide) (by decide)⟩

/-- C9: in text mode, a single page holding one record with event
delivered, timestamp 1704067200 and recipient a@b.com (no other fields)
followed by an empty page produces exactly one output line,
`[2024-01-01 00:00:00] DELIVERED <a@b.com>: ` — event uppercased,
timestamp rendered as UTC calendar and clock, no failure suffix, and the
missing subject rendered as the empty string. -/
theorem mainOutput_text_single_line :
    mainOutput false "example.com" (some "Mon, 01 Jan 2024 00:00:00 -0000")
      none
      [okResponse ⟨[⟨some "delivered", some 1704067200, some "a@b.com",
          none, none⟩], "nextUrl"⟩,
       emptyResponse "unused"]
    = [OutputItem.textLine "[2024-01-01 00:00:00] DELIVERED <a@b.com>: "] :=
  rfl

/-- C10: when the domain is absent from both the CLI arguments and the
MAILGUN_DOMAIN environment variable, the program exits with code 1 after
printing `Missing mailgun API key` — the exact failure produced for a
missing API key. -/
theorem resolveDomain_missing_prints_api_key_message :
    resolveDomain none none = Except.error ⟨"Missing mailgun API key", 1⟩ ∧
    resolveApiKey none none = Except.error ⟨"Missing mailgun API key", 1⟩ ∧
    resolveDomain none none = resolveApiKey none none :=
  ⟨rfl, rfl, rfl⟩

end Mailgunlog
